import Mathlib

/-!
A shallow embedding of the type-tag dispatch and facade-construction core of
the go-js-dom bindings (dom.go, unnamed/part_001 for the GopherJS v1 API;
v2/dom_go113.go, unnamed/part_000 for the syscall/js v2 API), together with
theorems about the wrap entry points, the cross-reference resolver, the
snapshot collection converter, the TokenList abstraction and the listener
lifetime registry.
-/

namespace GoDom

/-- A JavaScript value as seen through the bridge: null, undefined, an
object reference (identified by a host id), a string, a number, or a
boolean. Equality of object references is host identity, matching equality
of js.Value references under Go not-equal and switch comparisons. -/
inductive JSVal where
  | null
  | undefined
  | obj (id : Nat)
  | str (s : String)
  | num (n : Int)
  | boolean (b : Bool)
deriving DecidableEq

/-- Abnormal termination of a bridge operation: a JavaScript exception
raised by a host primitive (property access, method call or index on a
non-object), a failed Go interface type assertion, or an explicit Go panic
carrying a message. -/
inductive GoPanic where
  | jsTypeError
  | typeAssertionFailed
  | explicitPanic (msg : String)
deriving DecidableEq

/-- The host object graph, accessed exclusively through the four handle
primitives of the bindings: property read, method call, index read, and the
global environment lookup used for constructor comparisons (js.Global().Get
in v2, js.Global.Get in GopherJS). The graph is immutable during one bridge
call; property writes produce an updated host. -/
structure Host where
  props : Nat → String → JSVal
  call : Nat → String → List JSVal → JSVal
  index : Nat → Int → JSVal
  global : String → JSVal

/-- o.Get(p): reading a property, defined on object references only.
Reading a property of null or undefined throws in the host, and
syscall/js Value.Get likewise panics on non-objects. -/
def hGet (h : Host) (o : JSVal) (p : String) : Except GoPanic JSVal :=
  match o with
  | .obj id => .ok (h.props id p)
  | _ => .error .jsTypeError

/-- o.Set(p, v): writing a property, yielding the updated host. -/
def hSet (h : Host) (o : JSVal) (p : String) (v : JSVal) : Except GoPanic Host :=
  match o with
  | .obj id =>
    .ok { h with props := fun i q => if i = id ∧ q = p then v else h.props i q }
  | _ => .error .jsTypeError

/-- o.Call(m, args): invoking a method of an object reference. -/
def hCall (h : Host) (o : JSVal) (m : String) (args : List JSVal) : Except GoPanic JSVal :=
  match o with
  | .obj id => .ok (h.call id m args)
  | _ => .error .jsTypeError

/-- Value.Int(): the numeric value as a Go int. -/
def jsInt (o : JSVal) : Except GoPanic Int :=
  match o with
  | .num n => .ok n
  | _ => .error .jsTypeError

/-- Value.String() resp. Object.Str(): conversion to a Go string. Only the
string case is relied upon by any theorem below; the remaining cases stand
in for the host string conversion. -/
def jsString (o : JSVal) : String :=
  match o with
  | .str s => s
  | .null => "null"
  | .undefined => "undefined"
  | .num n => ToString.toString n
  | .boolean b => ToString.toString b
  | .obj _ => "[object]"

/-- The base delegation layer of every structural facade: BasicNode wraps
the handle directly and provides the Node capability set. -/
structure BasicNode where
  value : JSVal
deriving DecidableEq

/-- BasicElement wraps a BasicNode and adds the Element capability set. -/
structure BasicElement where
  node : BasicNode
deriving DecidableEq

/-- BasicHTMLElement wraps a BasicElement and adds the HTMLElement
capability set. -/
structure BasicHTMLElement where
  elem : BasicElement
deriving DecidableEq

/-- The concrete Go facade type selected by the structural dispatch
tables. Each name stands for the corresponding HTML...Element struct of the
source; basic stands for the plain BasicHTMLElement result. -/
inductive HTMLKind where
  | anchor
  | applet
  | area
  | audio
  | base
  | body
  | br
  | button
  | canvas
  | data
  | dataList
  | directory
  | div
  | dList
  | embed
  | fieldSet
  | font
  | form
  | frame
  | frameSet
  | head
  | heading
  | htmlRoot
  | hr
  | iframe
  | image
  | input
  | keygen
  | label
  | legend
  | li
  | link
  | mapEl
  | media
  | menu
  | meta
  | meter
  | mod
  | objectEl
  | oList
  | optGroup
  | option
  | output
  | paragraph
  | param
  | pre
  | progress
  | quote
  | script
  | selectEl
  | source
  | span
  | style
  | table
  | tableCaption
  | tableCell
  | tableDataCell
  | tableHeaderCell
  | tableCol
  | tableRow
  | tableSection
  | template
  | textArea
  | time
  | title
  | track
  | uList
  | unknown
  | video
  | basic
deriving DecidableEq

/-- An HTMLElement interface value: the concrete facade type chosen by
dispatch together with the BasicHTMLElement layering it wraps. In the
source every dispatch arm wraps one shared el layer over the handle;
HTMLAnchorElement and HTMLAreaElement additionally hold a URLUtils layer
over the same handle, and HTMLAudioElement and HTMLVideoElement an
HTMLMediaElement layer over el. Those extra layers carry no state beyond
the handle, so the kind alone records them. -/
structure HTMLFacade where
  kind : HTMLKind
  el : BasicHTMLElement
deriving DecidableEq

/-- The concrete Go event facade type selected by the event dispatch
tables; basicEvent stands for the plain BasicEvent result of the default
arm. -/
inductive EventKind where
  | animation
  | audioProcessing
  | beforeInput
  | beforeUnload
  | blob
  | clipboard
  | close
  | composition
  | cssFontFaceLoad
  | custom
  | deviceLight
  | deviceMotion
  | deviceOrientation
  | deviceProximity
  | domTransaction
  | drag
  | editingBeforeInput
  | errorEvent
  | focus
  | gamepad
  | hashChange
  | idbVersionChange
  | keyboard
  | mediaStream
  | message
  | mouse
  | mutation
  | offlineAudioCompletion
  | pageTransition
  | pointer
  | popState
  | progressEvent
  | related
  | rtcPeerConnectionIce
  | sensor
  | storage
  | svg
  | svgZoom
  | timeEvent
  | touch
  | track
  | transition
  | ui
  | userProximity
  | wheel
  | basicEvent
deriving DecidableEq

/-- The base delegation layer of every event facade: BasicEvent wraps the
event handle directly and provides the Event capability set. -/
structure BasicEvent where
  value : JSVal
deriving DecidableEq

/-- An Event interface value: the concrete facade type chosen by dispatch
together with the BasicEvent layer it wraps. MouseEvent wraps its
BasicEvent through an intermediate UIEvent layer; that layer carries no
state beyond the handle, so the kind alone records it. -/
structure EventFacade where
  kind : EventKind
  ev : BasicEvent
deriving DecidableEq

/-- The shared append loop of the nodeListTo... converters: wrap every
collected handle in order with the given facade factory, propagating a
panic raised by any element. -/
def wrapAll {α : Type} (f : JSVal → Except GoPanic α) : List JSVal → Except GoPanic (List α)
  | [] => .ok []
  | v :: vs => do
    let a ← f v
    let rest ← wrapAll f vs
    .ok (a :: rest)

namespace V2

/-- elementConstructor from v2/dom_go113.go: the type tag of a structural
handle. Elements wrapped in Polymer DOM APIs carry the real element under
the node property, whose constructor is used instead. -/
def elementConstructor (h : Host) (o : JSVal) : Except GoPanic JSVal := do
  let n ← hGet h o "node"
  if n ≠ JSVal.undefined then
    hGet h n "constructor"
  else
    hGet h o "constructor"

set_option maxHeartbeats 2000000 in
/-- The dispatch table of wrapHTMLElement in v2/dom_go113.go, in source
order: each entry pairs the global constructor name a case arm compares the
tag against with the concrete facade type that arm constructs. The final
arm for HTMLElement returns the shared el layer itself, as does the default
arm for tags outside this table. -/
def htmlCases : List (String × HTMLKind) :=
  [("HTMLAnchorElement", .anchor),
   ("HTMLAppletElement", .applet),
   ("HTMLAreaElement", .area),
   ("HTMLAudioElement", .audio),
   ("HTMLBaseElement", .base),
   ("HTMLBodyElement", .body),
   ("HTMLBRElement", .br),
   ("HTMLButtonElement", .button),
   ("HTMLCanvasElement", .canvas),
   ("HTMLDataElement", .data),
   ("HTMLDataListElement", .dataList),
   ("HTMLDirectoryElement", .directory),
   ("HTMLDivElement", .div),
   ("HTMLDListElement", .dList),
   ("HTMLEmbedElement", .embed),
   ("HTMLFieldSetElement", .fieldSet),
   ("HTMLFontElement", .font),
   ("HTMLFormElement", .form),
   ("HTMLFrameElement", .frame),
   ("HTMLFrameSetElement", .frameSet),
   ("HTMLHeadElement", .head),
   ("HTMLHeadingElement", .heading),
   ("HTMLHtmlElement", .htmlRoot),
   ("HTMLHRElement", .hr),
   ("HTMLIFrameElement", .iframe),
   ("HTMLImageElement", .image),
   ("HTMLInputElement", .input),
   ("HTMLKeygenElement", .keygen),
   ("HTMLLabelElement", .label),
   ("HTMLLegendElement", .legend),
   ("HTMLLIElement", .li),
   ("HTMLLinkElement", .link),
   ("HTMLMapElement", .mapEl),
   ("HTMLMediaElement", .media),
   ("HTMLMenuElement", .menu),
   ("HTMLMetaElement", .meta),
   ("HTMLMeterElement", .meter),
   ("HTMLModElement", .mod),
   ("HTMLObjectElement", .objectEl),
   ("HTMLOListElement", .oList),
   ("HTMLOptGroupElement", .optGroup),
   ("HTMLOptionElement", .option),
   ("HTMLOutputElement", .output),
   ("HTMLParagraphElement", .paragraph),
   ("HTMLParamElement", .param),
   ("HTMLPreElement", .pre),
   ("HTMLProgressElement", .progress),
   ("HTMLQuoteElement", .quote),
   ("HTMLScriptElement", .script),
   ("HTMLSelectElement", .selectEl),
   ("HTMLSourceElement", .source),
   ("HTMLSpanElement", .span),
   ("HTMLStyleElement", .style),
   ("HTMLTableElement", .table),
   ("HTMLTableCaptionElement", .tableCaption),
   ("HTMLTableCellElement", .tableCell),
   ("HTMLTableDataCellElement", .tableDataCell),
   ("HTMLTableHeaderCellElement", .tableHeaderCell),
   ("HTMLTableColElement", .tableCol),
   ("HTMLTableRowElement", .tableRow),
   ("HTMLTableSectionElement", .tableSection),
   ("HTMLTemplateElement", .template),
   ("HTMLTextAreaElement", .textArea),
   ("HTMLTimeElement", .time),
   ("HTMLTitleElement", .title),
   ("HTMLTrackElement", .track),
   ("HTMLUListElement", .uList),
   ("HTMLUnknownElement", .unknown),
   ("HTMLVideoElement", .video),
   ("HTMLElement", .basic)]

/-- wrapHTMLElement from v2/dom_go113.go: null and undefined short-circuit
to no object, then the handle's tag is compared against the global
constructors of the dispatch table in source order; the default arm returns
the shared BasicHTMLElement layer. -/
def wrapHTMLElement (h : Host) (o : JSVal) : Except GoPanic (Option HTMLFacade) :=
  if o = JSVal.null ∨ o = JSVal.undefined then
    .ok none
  else do
    let el : BasicHTMLElement := ⟨⟨⟨o⟩⟩⟩
    let c ← elementConstructor h o
    match htmlCases.find? (fun p => decide (h.global p.1 = c)) with
    | some p => .ok (some ⟨p.2, el⟩)
    | none => .ok (some ⟨HTMLKind.basic, el⟩)

/-- wrapElement from v2/dom_go113.go: null and undefined short-circuit to
no object; the constructor switch has only a default arm deferring to
wrapHTMLElement, but its scrutinee is still evaluated. -/
def wrapElement (h : Host) (o : JSVal) : Except GoPanic (Option HTMLFacade) :=
  if o = JSVal.null ∨ o = JSVal.undefined then
    .ok none
  else do
    let _ ← elementConstructor h o
    wrapHTMLElement h o

/-- A Node interface value produced by wrapNode: either the Text facade or
an element facade. -/
inductive NodeFacade where
  | text (n : BasicNode)
  | element (e : HTMLFacade)
deriving DecidableEq

/-- wrapNode from v2/dom_go113.go: null and undefined short-circuit to no
object; a Text constructor yields the Text facade, everything else defers
to wrapElement. -/
def wrapNode (h : Host) (o : JSVal) : Except GoPanic (Option NodeFacade) :=
  if o = JSVal.null ∨ o = JSVal.undefined then
    .ok none
  else do
    let c ← elementConstructor h o
    if c = h.global "Text" then
      .ok (some (NodeFacade.text ⟨o⟩))
    else do
      let e ← wrapElement h o
      .ok (e.map NodeFacade.element)

/-- getForm from v2/dom_go113.go: wrap the form property of the host
object; a missing relationship yields no object, and any other facade is
downcast to the concrete form facade by a Go type assertion, which fails
fatally when the facade is of a different concrete type. -/
def getForm (h : Host) (o : JSVal) : Except GoPanic (Option HTMLFacade) := do
  let f ← hGet h o "form"
  let w ← wrapHTMLElement h f
  match w with
  | none => .ok none
  | some fac =>
    if fac.kind = HTMLKind.form then .ok (some fac)
    else .error GoPanic.typeAssertionFailed

/-- The dispatch table of wrapEvent in the v2 events file, in source order:
each entry pairs the global constructor name a case arm compares the event
tag against with the concrete event facade type that arm constructs. -/
def eventCases : List (String × EventKind) :=
  [("AnimationEvent", .animation),
   ("AudioProcessingEvent", .audioProcessing),
   ("BeforeInputEvent", .beforeInput),
   ("BeforeUnloadEvent", .beforeUnload),
   ("BlobEvent", .blob),
   ("ClipboardEvent", .clipboard),
   ("CloseEvent", .close),
   ("CompositionEvent", .composition),
   ("CSSFontFaceLoadEvent", .cssFontFaceLoad),
   ("CustomEvent", .custom),
   ("DeviceLightEvent", .deviceLight),
   ("DeviceMotionEvent", .deviceMotion),
   ("DeviceOrientationEvent", .deviceOrientation),
   ("DeviceProximityEvent", .deviceProximity),
   ("DOMTransactionEvent", .domTransaction),
   ("DragEvent", .drag),
   ("EditingBeforeInputEvent", .editingBeforeInput),
   ("ErrorEvent", .errorEvent),
   ("FocusEvent", .focus),
   ("GamepadEvent", .gamepad),
   ("HashChangeEvent", .hashChange),
   ("IDBVersionChangeEvent", .idbVersionChange),
   ("KeyboardEvent", .keyboard),
   ("MediaStreamEvent", .mediaStream),
   ("MessageEvent", .message),
   ("MouseEvent", .mouse),
   ("MutationEvent", .mutation),
   ("OfflineAudioCompletionEvent", .offlineAudioCompletion),
   ("PageTransitionEvent", .pageTransition),
   ("PointerEvent", .pointer),
   ("PopStateEvent", .popState),
   ("ProgressEvent", .progressEvent),
   ("RelatedEvent", .related),
   ("RTCPeerConnectionIceEvent", .rtcPeerConnectionIce),
   ("SensorEvent", .sensor),
   ("StorageEvent", .storage),
   ("SVGEvent", .svg),
   ("SVGZoomEvent", .svgZoom),
   ("TimeEvent", .timeEvent),
   ("TouchEvent", .touch),
   ("TrackEvent", .track),
   ("TransitionEvent", .transition),
   ("UIEvent", .ui),
   ("UserProximityEvent", .userProximity),
   ("WheelEvent", .wheel)]

/-- wrapEvent from the v2 events file: null and undefined short-circuit to
no object, the base layer is built over the handle, and the constructor is
compared against the global event constructors in source order; the default
arm returns the base event facade itself. -/
def wrapEvent (h : Host) (o : JSVal) : Except GoPanic (Option EventFacade) :=
  if o = JSVal.null ∨ o = JSVal.undefined then
    .ok none
  else do
    let ev : BasicEvent := ⟨o⟩
    let c ← hGet h o "constructor"
    match eventCases.find? (fun p => decide (h.global p.1 = c)) with
    | some p => .ok (some ⟨p.2, ev⟩)
    | none => .ok (some ⟨EventKind.basicEvent, ev⟩)

/-- arrayToObjects from v2/dom_go113.go: index iteration over a host
Array, driven by its length property. -/
def arrayToObjects (h : Host) (o : JSVal) : Except GoPanic (List JSVal) :=
  match o with
  | .obj id => do
    let len ← jsInt (h.props id "length")
    .ok ((List.range len.toNat).map fun i => h.index id (Int.ofNat i))
  | _ => .error .jsTypeError

/-- nodeListToObjects from v2/dom_go113.go: detect which host collection
shape is present; a collection whose constructor is the global Array type
(Polymer DOM APIs) iterates by index subscripting, anything else through
the item accessor driven by the separate length property. -/
def nodeListToObjects (h : Host) (o : JSVal) : Except GoPanic (List JSVal) :=
  match o with
  | .obj id =>
    if h.props id "constructor" = h.global "Array" then
      arrayToObjects h o
    else do
      let len ← jsInt (h.props id "length")
      .ok ((List.range len.toNat).map fun i => h.call id "item" [JSVal.num (Int.ofNat i)])
  | _ => .error .jsTypeError

/-- nodeListToNodes from v2/dom_go113.go: the snapshot converter for Node
facades. -/
def nodeListToNodes (h : Host) (o : JSVal) : Except GoPanic (List (Option NodeFacade)) := do
  let objs ← nodeListToObjects h o
  wrapAll (fun v => wrapNode h v) objs

/-- nodeListToElements from v2/dom_go113.go: the snapshot converter for
Element facades. -/
def nodeListToElements (h : Host) (o : JSVal) : Except GoPanic (List (Option HTMLFacade)) := do
  let objs ← nodeListToObjects h o
  wrapAll (fun v => wrapElement h v) objs

/-- toString from v2/dom_go113.go: the string representation of o, with the
empty string for nil and undefined. -/
def toString (o : JSVal) : String :=
  if o = JSVal.null ∨ o = JSVal.undefined then "" else jsString o

/-- The v2 TokenList: the underlying DOMTokenList handle, the object it
belongs to, and the name of the corresponding string attribute, empty if
there is none. -/
structure TokenList where
  dtl : JSVal
  o : JSVal
  sa : String

/-- TokenList.Item from v2/dom_go113.go: call the item accessor and convert
through toString, so an absent token yields the empty string. -/
def TokenList.item (h : Host) (tl : TokenList) (idx : Int) : Except GoPanic String := do
  let o ← hCall h tl.dtl "item" [JSVal.num idx]
  .ok (V2.toString o)

/-- TokenList.String from v2/dom_go113.go: read the companion string
attribute when one was supplied at construction; otherwise read the value
property when the token list object is a DOMSettableTokenList; otherwise
return the empty string. -/
def TokenList.string (h : Host) (tl : TokenList) : Except GoPanic String :=
  if tl.sa ≠ "" then do
    let v ← hGet h tl.o tl.sa
    .ok (jsString v)
  else do
    let c ← hGet h tl.dtl "constructor"
    if c = h.global "DOMSettableTokenList" then do
      let v ← hGet h tl.dtl "value"
      .ok (jsString v)
    else
      .ok ""

/-- TokenList.SetString from v2/dom_go113.go: write the companion string
attribute when one was supplied at construction; otherwise write the value
property when the token list object is a DOMSettableTokenList; otherwise
panic. -/
def TokenList.setString (h : Host) (tl : TokenList) (s : String) : Except GoPanic Host :=
  if tl.sa ≠ "" then
    hSet h tl.o tl.sa (JSVal.str s)
  else do
    let c ← hGet h tl.dtl "constructor"
    if c = h.global "DOMSettableTokenList" then
      hSet h tl.dtl "value" (JSVal.str s)
    else
      .error (GoPanic.explicitPanic "no way to SetString on this TokenList")

end V2

namespace V1

/-- The tag lookup of the GopherJS bindings in dom.go: the printable name
of the handle's constructor, compared as a string. -/
def constructorName (h : Host) (o : JSVal) : Except GoPanic String := do
  let c ← hGet h o "constructor"
  let n ← hGet h c "name"
  .ok (jsString n)

set_option maxHeartbeats 2000000 in
/-- The dispatch table of wrapHTMLElement in dom.go, in source order: the
constructor name string each case arm matches, paired with the concrete
facade type that arm constructs. Unlike v2 there is no HTMLTemplateElement
arm and no HTMLElement arm, and the default arm panics. -/
def htmlCases : List (String × HTMLKind) :=
  [("HTMLAnchorElement", .anchor),
   ("HTMLAppletElement", .applet),
   ("HTMLAreaElement", .area),
   ("HTMLAudioElement", .audio),
   ("HTMLBaseElement", .base),
   ("HTMLBodyElement", .body),
   ("HTMLBRElement", .br),
   ("HTMLButtonElement", .button),
   ("HTMLCanvasElement", .canvas),
   ("HTMLDataElement", .data),
   ("HTMLDataListElement", .dataList),
   ("HTMLDirectoryElement", .directory),
   ("HTMLDivElement", .div),
   ("HTMLDListElement", .dList),
   ("HTMLEmbedElement", .embed),
   ("HTMLFieldSetElement", .fieldSet),
   ("HTMLFontElement", .font),
   ("HTMLFormElement", .form),
   ("HTMLFrameElement", .frame),
   ("HTMLFrameSetElement", .frameSet),
   ("HTMLHeadElement", .head),
   ("HTMLHeadingElement", .heading),
   ("HTMLHtmlElement", .htmlRoot),
   ("HTMLHRElement", .hr),
   ("HTMLIFrameElement", .iframe),
   ("HTMLImageElement", .image),
   ("HTMLInputElement", .input),
   ("HTMLKeygenElement", .keygen),
   ("HTMLLabelElement", .label),
   ("HTMLLegendElement", .legend),
   ("HTMLLIElement", .li),
   ("HTMLLinkElement", .link),
   ("HTMLMapElement", .mapEl),
   ("HTMLMediaElement", .media),
   ("HTMLMenuElement", .menu),
   ("HTMLMetaElement", .meta),
   ("HTMLMeterElement", .meter),
   ("HTMLModElement", .mod),
   ("HTMLObjectElement", .objectEl),
   ("HTMLOListElement", .oList),
   ("HTMLOptGroupElement", .optGroup),
   ("HTMLOptionElement", .option),
   ("HTMLOutputElement", .output),
   ("HTMLParagraphElement", .paragraph),
   ("HTMLParamElement", .param),
   ("HTMLPreElement", .pre),
   ("HTMLProgressElement", .progress),
   ("HTMLQuoteElement", .quote),
   ("HTMLScriptElement", .script),
   ("HTMLSelectElement", .selectEl),
   ("HTMLSourceElement", .source),
   ("HTMLSpanElement", .span),
   ("HTMLStyleElement", .style),
   ("HTMLTableElement", .table),
   ("HTMLTableCaptionElement", .tableCaption),
   ("HTMLTableCellElement", .tableCell),
   ("HTMLTableDataCellElement", .tableDataCell),
   ("HTMLTableHeaderCellElement", .tableHeaderCell),
   ("HTMLTableColElement", .tableCol),
   ("HTMLTableRowElement", .tableRow),
   ("HTMLTableSectionElement", .tableSection),
   ("HTMLTextAreaElement", .textArea),
   ("HTMLTimeElement", .time),
   ("HTMLTitleElement", .title),
   ("HTMLTrackElement", .track),
   ("HTMLUListElement", .uList),
   ("HTMLUnknownElement", .unknown),
   ("HTMLVideoElement", .video)]

/-- wrapHTMLElement from dom.go: null and undefined short-circuit to no
object, the base layers are built, and the constructor name is matched
against the case strings in source order; an unrecognized name reaches the
default arm, which panics with an unsupported element type message. -/
def wrapHTMLElement (h : Host) (o : JSVal) : Except GoPanic (Option HTMLFacade) :=
  if o = JSVal.null ∨ o = JSVal.undefined then
    .ok none
  else do
    let el : BasicHTMLElement := ⟨⟨⟨o⟩⟩⟩
    let name ← constructorName h o
    match htmlCases.find? (fun p => decide (p.1 = name)) with
    | some p => .ok (some ⟨p.2, el⟩)
    | none => .error (GoPanic.explicitPanic ("Unsupported HTML element type: " ++ name))

/-- wrapElement from dom.go: null and undefined short-circuit to no object;
the name switch has only a default arm deferring to wrapHTMLElement, but
its scrutinee is still evaluated. -/
def wrapElement (h : Host) (o : JSVal) : Except GoPanic (Option HTMLFacade) :=
  if o = JSVal.null ∨ o = JSVal.undefined then
    .ok none
  else do
    let _ ← constructorName h o
    wrapHTMLElement h o

/-- wrapNode from dom.go: null and undefined short-circuit to no object;
the name switch has only a default arm deferring to wrapElement, but its
scrutinee is still evaluated. -/
def wrapNode (h : Host) (o : JSVal) : Except GoPanic (Option HTMLFacade) :=
  if o = JSVal.null ∨ o = JSVal.undefined then
    .ok none
  else do
    let _ ← constructorName h o
    wrapElement h o

/-- The dispatch table of wrapEvent in dom.go, in source order: the
constructor name string each case arm matches, paired with the concrete
event facade type that arm constructs; the default arm returns the base
event facade. -/
def eventCases : List (String × EventKind) :=
  V2.eventCases

/-- wrapEvent from dom.go: null and undefined short-circuit to no object,
the base layer is built over the handle, and the constructor name is
matched against the case strings in source order; the default arm returns
the base event facade itself. -/
def wrapEvent (h : Host) (o : JSVal) : Except GoPanic (Option EventFacade) :=
  if o = JSVal.null ∨ o = JSVal.undefined then
    .ok none
  else do
    let ev : BasicEvent := ⟨o⟩
    let name ← constructorName h o
    match eventCases.find? (fun p => decide (p.1 = name)) with
    | some p => .ok (some ⟨p.2, ev⟩)
    | none => .ok (some ⟨EventKind.basicEvent, ev⟩)

/-- nodeListToNodes from dom.go: read the length property once and wrap the
result of the item accessor for each index in order; there is no collection
shape detection in this version. -/
def nodeListToNodes (h : Host) (o : JSVal) : Except GoPanic (List (Option HTMLFacade)) :=
  match o with
  | .obj id => do
    let len ← jsInt (h.props id "length")
    wrapAll (fun v => wrapNode h v)
      ((List.range len.toNat).map fun i => h.call id "item" [JSVal.num (Int.ofNat i)])
  | _ => .error .jsTypeError

/-- The v1 TokenList from unnamed/part_001, structurally the same record as
the v2 one. -/
structure TokenList where
  dtl : JSVal
  o : JSVal
  sa : String

/-- TokenList.Item from unnamed/part_001: call the item accessor, return
the empty string for a null or undefined result, and convert anything else
to a string. -/
def TokenList.item (h : Host) (tl : TokenList) (idx : Int) : Except GoPanic String := do
  let o ← hCall h tl.dtl "item" [JSVal.num idx]
  if o = JSVal.null ∨ o = JSVal.undefined then
    .ok ""
  else
    .ok (jsString o)

end V1

/-- The listener bookkeeping visible to the bridge: the next fresh adapter
identity (allocated by js.FuncOf in v2 and by externalizing a Go closure in
GopherJS), the host registry of (event name, adapter identity, capture
flag) registrations on the node, and which Go handler each adapter wraps.
Handlers are named by opaque numbers. -/
structure EventState where
  nextFunc : Nat
  regs : List (String × Nat × Bool)
  wraps : List (Nat × Nat)
deriving DecidableEq

/-- Modelled from the spec: the host addEventListener primitive of the
external collaborator (spec sections 4.7 and 6) registers the adapter keyed
by event name and capture flag; re-adding an identical registration is a
no-op under standard DOM semantics. -/
def hostAddEventListener (regs : List (String × Nat × Bool)) (typ : String) (fid : Nat)
    (cap : Bool) : List (String × Nat × Bool) :=
  if (typ, fid, cap) ∈ regs then regs else regs ++ [(typ, fid, cap)]

/-- Modelled from the spec: the host removeEventListener primitive removes
the registration carrying exactly the given adapter identity, event name
and capture flag, and nothing else. -/
def hostRemoveEventListener (regs : List (String × Nat × Bool)) (typ : String) (fid : Nat)
    (cap : Bool) : List (String × Nat × Bool) :=
  regs.filter (fun r => decide (r ≠ (typ, fid, cap)))

/-- Modelled from the spec: firing an event of the given name invokes every
adapter currently registered for that name, in registration order. -/
def fire (st : EventState) (typ : String) : List Nat :=
  (st.regs.filter (fun r => decide (r.1 = typ))).map (fun r => r.2.1)

/-- The Go handlers invoked when the given adapters run: each adapter
decodes the raw event handle through wrapEvent and calls the handler it
wraps. -/
def handlersOf (st : EventState) (fids : List Nat) : List Nat :=
  fids.filterMap (fun fid => st.wraps.lookup fid)

/-- A well-formed listener state: every registered adapter identity and
every recorded adapter was allocated before the next fresh identity. -/
def EventState.wf (st : EventState) : Prop :=
  (∀ r ∈ st.regs, r.2.1 < st.nextFunc) ∧ (∀ p ∈ st.wraps, p.1 < st.nextFunc)

namespace V2

/-- BasicNode.AddEventListener from v2/dom_go113.go: allocate the adapter
with js.FuncOf around the listener, hand it to the host keyed by event name
and capture flag, and return that same adapter. -/
def addEventListener (st : EventState) (typ : String) (useCapture : Bool) (handler : Nat) :
    Nat × EventState :=
  let wrapper := st.nextFunc
  (wrapper,
    { nextFunc := st.nextFunc + 1
      regs := hostAddEventListener st.regs typ wrapper useCapture
      wraps := (wrapper, handler) :: st.wraps })

/-- BasicNode.RemoveEventListener from v2/dom_go113.go: hand exactly the
given adapter identity back to the host, then release the adapter. -/
def removeEventListener (st : EventState) (typ : String) (useCapture : Bool) (fid : Nat) :
    EventState :=
  { st with regs := hostRemoveEventListener st.regs typ fid useCapture }

end V2

namespace V1

/-- BasicNode.AddEventListener from dom.go: externalize a fresh closure
wrapping the listener, hand it to the host keyed by event name and capture
flag, and return nothing. -/
def addEventListener (st : EventState) (typ : String) (useCapture : Bool) (handler : Nat) :
    EventState :=
  let wrapper := st.nextFunc
  { nextFunc := st.nextFunc + 1
    regs := hostAddEventListener st.regs typ wrapper useCapture
    wraps := (wrapper, handler) :: st.wraps }

/-- BasicNode.RemoveEventListener from dom.go: externalize another fresh
closure wrapping the listener and hand that to the host, not the adapter
that AddEventListener registered. -/
def removeEventListener (st : EventState) (typ : String) (useCapture : Bool) (handler : Nat) :
    EventState :=
  let wrapper := st.nextFunc
  { nextFunc := st.nextFunc + 1
    regs := hostRemoveEventListener st.regs typ wrapper useCapture
    wraps := (wrapper, handler) :: st.wraps }

end V1

/-- A host whose every lookup yields undefined. -/
def trivialHost : Host :=
  { props := fun _ _ => .undefined
    call := fun _ _ _ => .undefined
    index := fun _ _ => .undefined
    global := fun _ => .undefined }

/-- A host holding one element handle (object 0) whose constructor (object
1) carries the printable name SVGSVGElement, a tag outside both dispatch
tables. -/
def svgHost : Host :=
  { props := fun id p =>
      if id = 0 ∧ p = "constructor" then .obj 1
      else if id = 1 ∧ p = "name" then .str "SVGSVGElement" else .undefined
    call := fun _ _ _ => .undefined
    index := fun _ _ => .undefined
    global := fun _ => .undefined }

/-- A host where object 0 has a form property referring to object 1, an
element whose constructor (object 50) is not the global HTMLFormElement
constructor (object 100). -/
def wrongFormHost : Host :=
  { props := fun id p =>
      if id = 0 ∧ p = "form" then .obj 1
      else if id = 1 ∧ p = "constructor" then .obj 50 else .undefined
    call := fun _ _ _ => .undefined
    index := fun _ _ => .undefined
    global := fun s => if s = "HTMLFormElement" then .obj 100 else .undefined }

/-- A host with one item-shaped collection (object 0) of length 2 whose
first item is null and whose second item is object 5, an element whose
constructor (object 6) carries the name HTMLDivElement. The global Array
constructor is object 101, so the collection is not Array-shaped. -/
def listHost : Host :=
  { props := fun id p =>
      if id = 0 ∧ p = "length" then .num 2
      else if id = 5 ∧ p = "constructor" then .obj 6
      else if id = 6 ∧ p = "name" then .str "HTMLDivElement" else .undefined
    call := fun id m args =>
      if id = 0 ∧ m = "item" then
        match args with
        | [JSVal.num k] => if k = 0 then .null else .obj 5
        | _ => .undefined
      else .undefined
    index := fun _ _ => .undefined
    global := fun s => if s = "Array" then .obj 101 else .undefined }

/-- A host with an Array-shaped collection (object 0, constructor equal to
the global Array constructor, object 101) and an item-shaped collection
(object 1), both of length 2 and holding the same items, objects 10 and
11. -/
def twoShapesHost : Host :=
  { props := fun id p =>
      if id = 0 ∧ p = "constructor" then .obj 101
      else if id = 0 ∧ p = "length" then .num 2
      else if id = 1 ∧ p = "length" then .num 2 else .undefined
    call := fun id m args =>
      if id = 1 ∧ m = "item" then
        match args with
        | [JSVal.num k] => .obj (10 + k.toNat)
        | _ => .undefined
      else .undefined
    index := fun id i => if id = 0 then .obj (10 + i.toNat) else .undefined
    global := fun s => if s = "Array" then .obj 101 else .undefined }

/-- A host with a single Array-shaped collection (object 0, constructor
equal to the global Array constructor, object 101) of length 1 whose index
entry 0 is object 5, a div element, while its item accessor returns null;
index subscripting and item iteration therefore disagree on it. -/
def arrayItemHost : Host :=
  { props := fun id p =>
      if id = 0 ∧ p = "constructor" then .obj 101
      else if id = 0 ∧ p = "length" then .num 1
      else if id = 5 ∧ p = "constructor" then .obj 6
      else if id = 6 ∧ p = "name" then .str "HTMLDivElement" else .undefined
    call := fun id m _ => if id = 0 ∧ m = "item" then .null else .undefined
    index := fun id _ => if id = 0 then .obj 5 else .undefined
    global := fun s => if s = "Array" then .obj 101 else .undefined }

/-- A host holding one event handle (object 0) whose constructor (object 1)
carries the printable name FooEvent, a tag outside both event dispatch
tables; no global constructor is defined, so no identity comparison can
match either. -/
def fooEventHost : Host :=
  { props := fun id p =>
      if id = 0 ∧ p = "constructor" then .obj 1
      else if id = 1 ∧ p = "name" then .str "FooEvent" else .undefined
    call := fun _ _ _ => .undefined
    index := fun _ _ => .undefined
    global := fun _ => .undefined }

/-- The empty listener state: no adapter allocated, nothing registered. -/
def emptyListeners : EventState :=
  { nextFunc := 0, regs := [], wraps := [] }

/-- Reduction of a successful monadic step in the Except monad. -/
theorem okBind {ε α β : Type} (a : α) (fn : α → Except ε β) :
    (Except.ok a : Except ε α) >>= fn = fn a := rfl

/-- Reduction of a failing monadic step in the Except monad. -/
theorem errBind {ε α β : Type} (e : ε) (fn : α → Except ε β) :
    (Except.error e : Except ε α) >>= fn = Except.error e := rfl

/-- If the facade factory succeeds on every collected handle, the wrap loop
succeeds, preserves the length, and wraps elementwise. -/
theorem wrapAll_ok {α : Type} (f : JSVal → Except GoPanic α) :
    ∀ vs : List JSVal, (∀ v ∈ vs, ∃ a, f v = .ok a) →
      ∃ l, wrapAll f vs = .ok l ∧ l.length = vs.length ∧
        ∀ (i : Nat) (v : JSVal), vs[i]? = some v → ∃ a, f v = .ok a ∧ l[i]? = some a
  | [], _ => ⟨[], rfl, rfl, by intro i v hv; simp at hv⟩
  | v :: vs, hs => by
    obtain ⟨a, ha⟩ := hs v (List.mem_cons_self v vs)
    obtain ⟨l, hl, hlen, hidx⟩ :=
      wrapAll_ok f vs (fun w hw => hs w (List.mem_cons_of_mem v hw))
    refine ⟨a :: l, ?_, by simp [hlen], ?_⟩
    · simp [wrapAll, ha, hl, okBind]
    · intro i w hw
      cases i with
      | zero =>
        simp only [List.getElem?_cons_zero, Option.some_inj] at hw
        subst hw
        exact ⟨a, ha, by simp⟩
      | succ j =>
        simp only [List.getElem?_cons_succ] at hw
        obtain ⟨b, hb, hbl⟩ := hidx j w hw
        exact ⟨b, hb, by simpa using hbl⟩

/-- On an object handle whose node property is undefined or an object, the
v2 tag resolver succeeds. -/
theorem elementConstructor_obj (h : Host) (id : Nat)
    (hn : h.props id "node" = JSVal.undefined ∨ ∃ k, h.props id "node" = JSVal.obj k) :
    ∃ c, V2.elementConstructor h (JSVal.obj id) = .ok c := by
  rcases hn with hn | ⟨k, hn⟩
  · exact ⟨h.props id "constructor", by simp [V2.elementConstructor, hGet, hn, okBind]⟩
  · exact ⟨h.props k "constructor", by simp [V2.elementConstructor, hGet, hn, okBind]⟩

/-- On an object handle whose node property is undefined or an object, the
v2 structural factory always succeeds and wraps the handle itself in the
base layers, whatever the tag resolves to. -/
theorem wrapHTMLElement_obj (h : Host) (id : Nat)
    (hn : h.props id "node" = JSVal.undefined ∨ ∃ k, h.props id "node" = JSVal.obj k) :
    ∃ fac : HTMLFacade, V2.wrapHTMLElement h (JSVal.obj id) = .ok (some fac) ∧
      fac.el = ⟨⟨⟨JSVal.obj id⟩⟩⟩ := by
  obtain ⟨c, hc⟩ := elementConstructor_obj h id hn
  have hno : ¬ (JSVal.obj id = JSVal.null ∨ JSVal.obj id = JSVal.undefined) := by simp
  simp only [V2.wrapHTMLElement, if_neg hno, hc, okBind]
  cases hfind : V2.htmlCases.find? (fun p => decide (h.global p.1 = c)) with
  | none => exact ⟨⟨HTMLKind.basic, ⟨⟨⟨JSVal.obj id⟩⟩⟩⟩, rfl, rfl⟩
  | some p => exact ⟨⟨p.2, ⟨⟨⟨JSVal.obj id⟩⟩⟩⟩, rfl, rfl⟩

/-- On an object handle of the same shape, v2 wrapElement succeeds and
agrees with the factory it defers to. -/
theorem wrapElement_obj (h : Host) (id : Nat)
    (hn : h.props id "node" = JSVal.undefined ∨ ∃ k, h.props id "node" = JSVal.obj k) :
    V2.wrapElement h (JSVal.obj id) = V2.wrapHTMLElement h (JSVal.obj id) := by
  obtain ⟨c, hc⟩ := elementConstructor_obj h id hn
  have hno : ¬ (JSVal.obj id = JSVal.null ∨ JSVal.obj id = JSVal.undefined) := by simp
  simp only [V2.wrapElement, if_neg hno, hc, okBind]

/-- On a handle that is null, undefined, or an object of the shape above,
v2 wrapNode succeeds. -/
theorem wrapNode_ok (h : Host) (v : JSVal)
    (hv : v = JSVal.null ∨ v = JSVal.undefined ∨
      ∃ id, v = JSVal.obj id ∧
        (h.props id "node" = JSVal.undefined ∨ ∃ k, h.props id "node" = JSVal.obj k)) :
    ∃ r, V2.wrapNode h v = .ok r := by
  rcases hv with hv | hv | ⟨id, hv, hn⟩
  · exact ⟨none, by simp [V2.wrapNode, hv]⟩
  · exact ⟨none, by simp [V2.wrapNode, hv]⟩
  · subst hv
    obtain ⟨c, hc⟩ := elementConstructor_obj h id hn
    have hno : ¬ (JSVal.obj id = JSVal.null ∨ JSVal.obj id = JSVal.undefined) := by simp
    simp only [V2.wrapNode, if_neg hno, hc, okBind]
    by_cases htext : c = h.global "Text"
    · exact ⟨some (V2.NodeFacade.text ⟨JSVal.obj id⟩), by simp [htext]⟩
    · obtain ⟨fac, hfac, _⟩ := wrapHTMLElement_obj h id hn
      refine ⟨some (V2.NodeFacade.element fac), ?_⟩
      simp [htext, wrapElement_obj h id hn, hfac, okBind]

/-- C1: falsified as stated. In dom.go the structural factory reaches its
unsupported element type panic on any non-null handle whose constructor
name is outside the recognized vocabulary, here an SVG element. -/
theorem C1_counterexample :
    V1.wrapHTMLElement svgHost (JSVal.obj 0) =
      .error (GoPanic.explicitPanic "Unsupported HTML element type: SVGSVGElement") := by
  rfl

/-- C1 (amended): in the v2 factory dispatch is total. For every non-null,
non-undefined object handle (with the node property undefined or an
object, so the Polymer tag lookup succeeds), wrapHTMLElement, also when
reached through wrapElement, returns a facade that wraps the handle in the
base Node layering, including for tags outside the recognized vocabulary;
in dom.go the default arm instead panics, so the failure branch is
reachable there. -/
theorem C1_dispatch_total (h : Host) (id : Nat)
    (hn : h.props id "node" = JSVal.undefined ∨ ∃ k, h.props id "node" = JSVal.obj k) :
    ∃ fac : HTMLFacade, V2.wrapHTMLElement h (JSVal.obj id) = .ok (some fac) ∧
      fac.el = ⟨⟨⟨JSVal.obj id⟩⟩⟩ ∧
      V2.wrapElement h (JSVal.obj id) = .ok (some fac) := by
  obtain ⟨fac, hfac, hel⟩ := wrapHTMLElement_obj h id hn
  exact ⟨fac, hfac, hel, by rw [wrapElement_obj h id hn, hfac]⟩

/-- C1 witness: the v2 factory on the same SVG handle that panics in
dom.go. -/
theorem C1_dispatch_total_witness :
    ∃ fac : HTMLFacade, V2.wrapHTMLElement svgHost (JSVal.obj 0) = .ok (some fac) ∧
      fac.el = ⟨⟨⟨JSVal.obj 0⟩⟩⟩ ∧
      V2.wrapElement svgHost (JSVal.obj 0) = .ok (some fac) :=
  C1_dispatch_total svgHost 0 (Or.inl rfl)

/-- C2: the form cross-reference resolver returns no object exactly when
the form relationship is absent (null or undefined), and when the
relationship resolves to a facade of any concrete type other than the form
facade it fails with the Go type assertion, never coercing; a facade of
the expected type is returned as is. -/
theorem C2_getForm (h : Host) (id : Nat) :
    ((h.props id "form" = JSVal.null ∨ h.props id "form" = JSVal.undefined) →
      V2.getForm h (JSVal.obj id) = .ok none) ∧
    (∀ fac : HTMLFacade, V2.wrapHTMLElement h (h.props id "form") = .ok (some fac) →
      (fac.kind ≠ HTMLKind.form →
        V2.getForm h (JSVal.obj id) = .error GoPanic.typeAssertionFailed) ∧
      (fac.kind = HTMLKind.form →
        V2.getForm h (JSVal.obj id) = .ok (some fac))) := by
  constructor
  · intro hf
    rcases hf with hf | hf <;>
      simp [V2.getForm, hGet, hf, V2.wrapHTMLElement, okBind]
  · intro fac hfac
    have hg : hGet h (JSVal.obj id) "form" = .ok (h.props id "form") := rfl
    constructor
    · intro hk
      simp [V2.getForm, hg, okBind, hfac, hk]
    · intro hk
      simp [V2.getForm, hg, okBind, hfac, hk]

/-- C2 witness: a host whose form relationship resolves to a non-form
element, hitting the fatal type assertion. -/
theorem C2_getForm_witness :
    V2.getForm wrongFormHost (JSVal.obj 0) = .error GoPanic.typeAssertionFailed :=
  ((C2_getForm wrongFormHost 0).2 ⟨HTMLKind.basic, ⟨⟨⟨JSVal.obj 1⟩⟩⟩⟩ rfl).1 (by decide)

/-- C5: every wrap entry point of both generations short-circuits a null or
undefined handle to no object, for every host, before any tag lookup and
without surfacing an error. -/
theorem C5_null_short_circuit (h : Host) (o : JSVal)
    (ho : o = JSVal.null ∨ o = JSVal.undefined) :
    V2.wrapNode h o = .ok none ∧ V2.wrapElement h o = .ok none ∧
    V2.wrapHTMLElement h o = .ok none ∧ V2.wrapEvent h o = .ok none ∧
    V1.wrapNode h o = .ok none ∧ V1.wrapElement h o = .ok none ∧
    V1.wrapHTMLElement h o = .ok none ∧ V1.wrapEvent h o = .ok none := by
  rcases ho with ho | ho <;> subst ho <;>
    exact ⟨rfl, rfl, rfl, rfl, rfl, rfl, rfl, rfl⟩

/-- C5 witness: the null handle under the trivial host. -/
theorem C5_null_short_circuit_witness :
    V2.wrapNode trivialHost JSVal.null = .ok none ∧
    V2.wrapElement trivialHost JSVal.null = .ok none ∧
    V2.wrapHTMLElement trivialHost JSVal.null = .ok none ∧
    V2.wrapEvent trivialHost JSVal.null = .ok none ∧
    V1.wrapNode trivialHost JSVal.null = .ok none ∧
    V1.wrapElement trivialHost JSVal.null = .ok none ∧
    V1.wrapHTMLElement trivialHost JSVal.null = .ok none ∧
    V1.wrapEvent trivialHost JSVal.null = .ok none :=
  C5_null_short_circuit trivialHost JSVal.null (Or.inl rfl)

/-- C9: on a non-null event handle whose constructor is outside the
recognized event vocabulary (no global event constructor is identical to it
in v2, and its printable name matches no case string in dom.go), both event
factories return the generic base event facade wrapping the handle, with no
error and no panic. -/
theorem C9_event_default (h : Host) (id cid : Nat)
    (hctor : h.props id "constructor" = JSVal.obj cid)
    (hv2 : ∀ p ∈ V2.eventCases, h.global p.1 ≠ h.props id "constructor")
    (hv1 : ∀ p ∈ V1.eventCases, p.1 ≠ jsString (h.props cid "name")) :
    V2.wrapEvent h (JSVal.obj id) = .ok (some ⟨EventKind.basicEvent, ⟨JSVal.obj id⟩⟩) ∧
    V1.wrapEvent h (JSVal.obj id) = .ok (some ⟨EventKind.basicEvent, ⟨JSVal.obj id⟩⟩) := by
  have hno : ¬ (JSVal.obj id = JSVal.null ∨ JSVal.obj id = JSVal.undefined) := by simp
  constructor
  · have hfind :
        V2.eventCases.find? (fun p => decide (h.global p.1 = h.props id "constructor")) = none :=
      List.find?_eq_none.2 (fun p hp => by simpa using hv2 p hp)
    have hg : hGet h (JSVal.obj id) "constructor" = .ok (h.props id "constructor") := rfl
    simp only [V2.wrapEvent, if_neg hno, hg, okBind, hfind]
  · have hname : V1.constructorName h (JSVal.obj id) = .ok (jsString (h.props cid "name")) := by
      simp [V1.constructorName, hGet, hctor, okBind]
    have hfind :
        V1.eventCases.find? (fun p => decide (p.1 = jsString (h.props cid "name"))) = none :=
      List.find?_eq_none.2 (fun p hp => by simpa using hv1 p hp)
    simp only [V1.wrapEvent, if_neg hno, hname, okBind, hfind]

/-- C9 witness: an event handle of constructor name FooEvent under a host
with no global event constructors. -/
theorem C9_event_default_witness :
    V2.wrapEvent fooEventHost (JSVal.obj 0) =
      .ok (some ⟨EventKind.basicEvent, ⟨JSVal.obj 0⟩⟩) ∧
    V1.wrapEvent fooEventHost (JSVal.obj 0) =
      .ok (some ⟨EventKind.basicEvent, ⟨JSVal.obj 0⟩⟩) :=
  C9_event_default fooEventHost 0 1 rfl (by decide) (by decide)

/-- C10: TokenList.Item of both generations is total on any index: it
always returns a string, and when the host item accessor yields null or
undefined the result is the empty string, the absent value never being
dereferenced. -/
theorem C10_item_total (h : Host) (tl2 : V2.TokenList) (tl1 : V1.TokenList) (idx : Int)
    (b2 b1 : Nat) (hd2 : tl2.dtl = JSVal.obj b2) (hd1 : tl1.dtl = JSVal.obj b1) :
    (∃ s, V2.TokenList.item h tl2 idx = .ok s) ∧
    ((h.call b2 "item" [JSVal.num idx] = JSVal.null ∨
        h.call b2 "item" [JSVal.num idx] = JSVal.undefined) →
      V2.TokenList.item h tl2 idx = .ok "") ∧
    (∃ s, V1.TokenList.item h tl1 idx = .ok s) ∧
    ((h.call b1 "item" [JSVal.num idx] = JSVal.null ∨
        h.call b1 "item" [JSVal.num idx] = JSVal.undefined) →
      V1.TokenList.item h tl1 idx = .ok "") := by
  refine ⟨⟨V2.toString (h.call b2 "item" [JSVal.num idx]), ?_⟩, ?_, ?_, ?_⟩
  · simp [V2.TokenList.item, hCall, hd2, okBind]
  · intro hnull
    simp [V2.TokenList.item, hCall, hd2, okBind, V2.toString, hnull]
  · by_cases hnull : h.call b1 "item" [JSVal.num idx] = JSVal.null ∨
        h.call b1 "item" [JSVal.num idx] = JSVal.undefined
    · exact ⟨"", by simp [V1.TokenList.item, hCall, hd1, okBind, hnull]⟩
    · exact ⟨jsString (h.call b1 "item" [JSVal.num idx]),
        by simp [V1.TokenList.item, hCall, hd1, okBind, hnull]⟩
  · intro hnull
    simp [V1.TokenList.item, hCall, hd1, okBind, hnull]

/-- C10 witness: token lists whose host item accessor yields undefined at
every index. -/
theorem C10_item_total_witness :
    (∃ s, V2.TokenList.item trivialHost ⟨JSVal.obj 0, JSVal.undefined, ""⟩ 3 = .ok s) ∧
    ((trivialHost.call 0 "item" [JSVal.num 3] = JSVal.null ∨
        trivialHost.call 0 "item" [JSVal.num 3] = JSVal.undefined) →
      V2.TokenList.item trivialHost ⟨JSVal.obj 0, JSVal.undefined, ""⟩ 3 = .ok "") ∧
    (∃ s, V1.TokenList.item trivialHost ⟨JSVal.obj 0, JSVal.undefined, ""⟩ 3 = .ok s) ∧
    ((trivialHost.call 0 "item" [JSVal.num 3] = JSVal.null ∨
        trivialHost.call 0 "item" [JSVal.num 3] = JSVal.undefined) →
      V1.TokenList.item trivialHost ⟨JSVal.obj 0, JSVal.undefined, ""⟩ 3 = .ok "") :=
  C10_item_total trivialHost ⟨JSVal.obj 0, JSVal.undefined, ""⟩
    ⟨JSVal.obj 0, JSVal.undefined, ""⟩ 3 0 0 rfl rfl

/-- C8: for a TokenList backed by a companion string attribute on an object
handle, writing any whitespace-free token string and reading back as a
joined string returns exactly that string, both operations going through
the companion attribute. -/
theorem C8_roundtrip (h : Host) (tl : V2.TokenList) (s : String) (a : Nat)
    (ho : tl.o = JSVal.obj a) (hsa : tl.sa ≠ "")
    (hws : ∀ c ∈ s.toList, ¬ c.isWhitespace) :
    ∃ h2, V2.TokenList.setString h tl s = .ok h2 ∧
      V2.TokenList.string h2 tl = .ok s := by
  refine ⟨{ h with
      props := fun i q => if i = a ∧ q = tl.sa then JSVal.str s else h.props i q }, ?_, ?_⟩
  · simp [V2.TokenList.setString, hsa, hSet, ho]
  · simp [V2.TokenList.string, hsa, hGet, ho, jsString, okBind]

/-- C8 witness: writing the token string ab through a className-backed
token list and reading it back. -/
theorem C8_roundtrip_witness :
    ∃ h2, V2.TokenList.setString trivialHost ⟨JSVal.obj 1, JSVal.obj 0, "className"⟩ "ab" = .ok h2 ∧
      V2.TokenList.string h2 ⟨JSVal.obj 1, JSVal.obj 0, "className"⟩ = .ok "ab" :=
  C8_roundtrip trivialHost ⟨JSVal.obj 1, JSVal.obj 0, "className"⟩ "ab" 0 rfl
    (by decide) (by decide)

/-- C4: the read-as-string and write-as-string operations of the v2
TokenList follow the companion attribute first, the value property of a
DOMSettableTokenList second, and otherwise read as the empty string while
writing panics. -/
theorem C4_tokenlist_precedence (h : Host) (tl : V2.TokenList) (s : String) (a b : Nat)
    (ho : tl.o = JSVal.obj a) (hd : tl.dtl = JSVal.obj b) :
    (tl.sa ≠ "" →
      V2.TokenList.string h tl = .ok (jsString (h.props a tl.sa)) ∧
      V2.TokenList.setString h tl s =
        .ok { h with
          props := fun i q => if i = a ∧ q = tl.sa then JSVal.str s else h.props i q }) ∧
    (tl.sa = "" → h.props b "constructor" = h.global "DOMSettableTokenList" →
      V2.TokenList.string h tl = .ok (jsString (h.props b "value")) ∧
      V2.TokenList.setString h tl s =
        .ok { h with
          props := fun i q => if i = b ∧ q = "value" then JSVal.str s else h.props i q }) ∧
    (tl.sa = "" → h.props b "constructor" ≠ h.global "DOMSettableTokenList" →
      V2.TokenList.string h tl = .ok "" ∧
      V2.TokenList.setString h tl s =
        .error (GoPanic.explicitPanic "no way to SetString on this TokenList")) := by
  refine ⟨fun hsa => ⟨?_, ?_⟩, fun hsa hc => ⟨?_, ?_⟩, fun hsa hc => ⟨?_, ?_⟩⟩
  · simp [V2.TokenList.string, hsa, hGet, ho, okBind]
  · simp [V2.TokenList.setString, hsa, hSet, ho]
  · simp [V2.TokenList.string, hsa, hGet, hd, hc, okBind]
  · simp [V2.TokenList.setString, hsa, hSet, hGet, hd, hc, okBind]
  · simp [V2.TokenList.string, hsa, hGet, hd, hc, okBind]
  · simp [V2.TokenList.setString, hsa, hSet, hGet, hd, hc, okBind]

/-- C4 witness: a className-backed token list always reads and writes the
companion attribute. -/
theorem C4_tokenlist_precedence_witness :
    V2.TokenList.string trivialHost ⟨JSVal.obj 1, JSVal.obj 0, "className"⟩ =
      .ok (jsString (trivialHost.props 0 "className")) ∧
    V2.TokenList.setString trivialHost ⟨JSVal.obj 1, JSVal.obj 0, "className"⟩ "x" =
      .ok { trivialHost with
        props := fun i q => if i = 0 ∧ q = "className" then JSVal.str "x" else trivialHost.props i q } :=
  (C4_tokenlist_precedence trivialHost ⟨JSVal.obj 1, JSVal.obj 0, "className"⟩ "x" 0 1
    rfl rfl).1 (by decide)

/-- Looking an adapter up past a newer adapter with a different identity. -/
theorem lookup_cons_ne (w hnd fid : Nat) (wraps : List (Nat × Nat)) (hne : fid ≠ w) :
    ((w, hnd) :: wraps).lookup fid = wraps.lookup fid := by
  simp [List.lookup, beq_eq_false_iff_ne.2 hne]

/-- C3: falsified as stated for dom.go. There AddEventListener returns no
adapter identity and RemoveEventListener hands the host a freshly
externalized closure, so after registering handler 7 for click, calling
RemoveEventListener with the same handler, and firing a click, handler 7 is
still invoked once instead of zero times. -/
theorem C3_counterexample :
    handlersOf
      (V1.removeEventListener (V1.addEventListener emptyListeners "click" false 7) "click" false 7)
      (fire
        (V1.removeEventListener (V1.addEventListener emptyListeners "click" false 7) "click" false 7)
        "click") = [7] := by
  decide

/-- C3 (amended): for the v2 registry, on any well-formed listener state,
AddEventListener registers with the host exactly the adapter identity it
returns, RemoveEventListener given that identity restores the host registry
to its previous registrations, and a handler that no prior registration
would invoke is not invoked by any subsequently fired event of that name;
in dom.go the removal hands the host a fresh adapter instead, so the
registration survives. -/
theorem C3_register_deregister (st : EventState) (typ : String) (cap : Bool) (hnd : Nat)
    (hwf : EventState.wf st) :
    ((typ, (V2.addEventListener st typ cap hnd).1, cap) ∈
        (V2.addEventListener st typ cap hnd).2.regs) ∧
    ((V2.removeEventListener (V2.addEventListener st typ cap hnd).2 typ cap
        (V2.addEventListener st typ cap hnd).1).regs = st.regs) ∧
    (hnd ∉ handlersOf st (fire st typ) →
      hnd ∉ handlersOf
        (V2.removeEventListener (V2.addEventListener st typ cap hnd).2 typ cap
          (V2.addEventListener st typ cap hnd).1)
        (fire
          (V2.removeEventListener (V2.addEventListener st typ cap hnd).2 typ cap
            (V2.addEventListener st typ cap hnd).1) typ)) := by
  have hfresh : (typ, st.nextFunc, cap) ∉ st.regs := fun hmem =>
    absurd (hwf.1 (typ, st.nextFunc, cap) hmem) (Nat.lt_irrefl st.nextFunc)
  have hregs1 : (V2.addEventListener st typ cap hnd).2.regs =
      st.regs ++ [(typ, st.nextFunc, cap)] := by
    simp [V2.addEventListener, hostAddEventListener, hfresh]
  have hregs2 : (V2.removeEventListener (V2.addEventListener st typ cap hnd).2 typ cap
      (V2.addEventListener st typ cap hnd).1).regs = st.regs := by
    show hostRemoveEventListener (V2.addEventListener st typ cap hnd).2.regs typ st.nextFunc cap
      = st.regs
    rw [hregs1]
    unfold hostRemoveEventListener
    rw [List.filter_append]
    have h1 : st.regs.filter (fun r => decide (r ≠ (typ, st.nextFunc, cap))) = st.regs :=
      List.filter_eq_self.2 (fun r hr => decide_eq_true (fun heq =>
        absurd (hwf.1 r hr) (by rw [heq]; exact Nat.lt_irrefl st.nextFunc)))
    have h2 : [(typ, st.nextFunc, cap)].filter
        (fun r => decide (r ≠ (typ, st.nextFunc, cap))) = [] := by simp
    rw [h1, h2, List.append_nil]
  refine ⟨?_, hregs2, ?_⟩
  · rw [hregs1]
    exact List.mem_append_right _ (List.mem_singleton.2 rfl)
  · intro hout
    have hfire : fire (V2.removeEventListener (V2.addEventListener st typ cap hnd).2 typ cap
        (V2.addEventListener st typ cap hnd).1) typ = fire st typ := by
      simp [fire, hregs2]
    have hbound : ∀ fid ∈ fire st typ, fid < st.nextFunc := by
      intro fid hfid
      simp only [fire, List.mem_map, List.mem_filter] at hfid
      obtain ⟨r, ⟨hr, _⟩, hr2⟩ := hfid
      exact hr2 ▸ hwf.1 r hr
    have hwraps : (V2.removeEventListener (V2.addEventListener st typ cap hnd).2 typ cap
        (V2.addEventListener st typ cap hnd).1).wraps = (st.nextFunc, hnd) :: st.wraps := rfl
    have hsame : handlersOf (V2.removeEventListener (V2.addEventListener st typ cap hnd).2 typ cap
        (V2.addEventListener st typ cap hnd).1) (fire st typ) =
        handlersOf st (fire st typ) := by
      unfold handlersOf
      rw [hwraps]
      exact List.filterMap_congr (fun fid hfid =>
        lookup_cons_ne st.nextFunc hnd fid st.wraps (Nat.ne_of_lt (hbound fid hfid)))
    rw [hfire, hsame]
    exact hout

/-- C3 witness: registering handler 7 for click on the empty state and
deregistering with the returned adapter leaves no registration, and a
subsequent click invokes no handler. -/
theorem C3_register_deregister_witness :
    (("click", (V2.addEventListener emptyListeners "click" false 7).1, false) ∈
        (V2.addEventListener emptyListeners "click" false 7).2.regs) ∧
    ((V2.removeEventListener (V2.addEventListener emptyListeners "click" false 7).2 "click" false
        (V2.addEventListener emptyListeners "click" false 7).1).regs = emptyListeners.regs) ∧
    (7 ∉ handlersOf emptyListeners (fire emptyListeners "click") →
      7 ∉ handlersOf
        (V2.removeEventListener (V2.addEventListener emptyListeners "click" false 7).2 "click" false
          (V2.addEventListener emptyListeners "click" false 7).1)
        (fire
          (V2.removeEventListener (V2.addEventListener emptyListeners "click" false 7).2 "click"
            false (V2.addEventListener emptyListeners "click" false 7).1) "click")) :=
  C3_register_deregister emptyListeners "click" false 7
    (by constructor <;> intro r hr <;> simp [emptyListeners] at hr)

/-- A converter that runs the shared wrap loop over the item sequence of
length n succeeds elementwise when the factory does, preserving the length
and wrapping the i-th item into the i-th slot. -/
theorem snapshot_general {α : Type} (f : JSVal → Except GoPanic α) (g : Nat → JSVal) (n : Nat)
    (conv : Except GoPanic (List α))
    (hconv : conv = wrapAll f ((List.range n).map g))
    (hok : ∀ i, i < n → ∃ a, f (g i) = .ok a) :
    ∃ l, conv = .ok l ∧ l.length = n ∧
      ∀ i, i < n → ∃ a, f (g i) = .ok a ∧ l[i]? = some a := by
  have hall : ∀ v ∈ (List.range n).map g, ∃ a, f v = .ok a := by
    intro v hv
    obtain ⟨i, hi, rfl⟩ := List.mem_map.1 hv
    exact hok i (List.mem_range.1 hi)
  obtain ⟨l, hl, hlen, hidx⟩ := wrapAll_ok f ((List.range n).map g) hall
  refine ⟨l, by rw [hconv, hl], by simpa using hlen, ?_⟩
  intro i hi
  have hv : ((List.range n).map g)[i]? = some (g i) := by
    simp [List.getElem?_map, List.getElem?_range hi]
  exact hidx i (g i) hv

/-- C6: on a host collection (item shape for v2, whose converter would
otherwise take the Array branch) whose length property is n and whose items
all wrap successfully, the snapshot converters of both generations return a
sequence of exactly n facades whose i-th entry is the wrap of the host's
i-th item, and a collection of length 0 yields the empty sequence, never an
absent result. -/
theorem C6_snapshot_converter (h : Host) (id : Nat) (n : Nat)
    (hc : h.props id "constructor" ≠ h.global "Array")
    (hl : h.props id "length" = JSVal.num (Int.ofNat n))
    (hwN : ∀ i, i < n →
      ∃ r, V2.wrapNode h (h.call id "item" [JSVal.num (Int.ofNat i)]) = .ok r)
    (hwE : ∀ i, i < n →
      ∃ r, V2.wrapElement h (h.call id "item" [JSVal.num (Int.ofNat i)]) = .ok r)
    (hw1 : ∀ i, i < n →
      ∃ r, V1.wrapNode h (h.call id "item" [JSVal.num (Int.ofNat i)]) = .ok r) :
    (∃ l, V2.nodeListToNodes h (JSVal.obj id) = .ok l ∧ l.length = n ∧
      ∀ i, i < n → ∃ r, V2.wrapNode h (h.call id "item" [JSVal.num (Int.ofNat i)]) = .ok r ∧
        l[i]? = some r) ∧
    (∃ l, V2.nodeListToElements h (JSVal.obj id) = .ok l ∧ l.length = n ∧
      ∀ i, i < n → ∃ r, V2.wrapElement h (h.call id "item" [JSVal.num (Int.ofNat i)]) = .ok r ∧
        l[i]? = some r) ∧
    (∃ l, V1.nodeListToNodes h (JSVal.obj id) = .ok l ∧ l.length = n ∧
      ∀ i, i < n → ∃ r, V1.wrapNode h (h.call id "item" [JSVal.num (Int.ofNat i)]) = .ok r ∧
        l[i]? = some r) ∧
    (n = 0 → V2.nodeListToNodes h (JSVal.obj id) = .ok []) := by
  have hobjs : V2.nodeListToObjects h (JSVal.obj id) =
      .ok ((List.range n).map fun i => h.call id "item" [JSVal.num (Int.ofNat i)]) := by
    simp [V2.nodeListToObjects, hc, hl, jsInt, okBind, Int.toNat_ofNat]
  have hN : V2.nodeListToNodes h (JSVal.obj id) =
      wrapAll (fun v => V2.wrapNode h v)
        ((List.range n).map fun i => h.call id "item" [JSVal.num (Int.ofNat i)]) := by
    simp only [V2.nodeListToNodes]
    rw [hobjs, okBind]
  have hE : V2.nodeListToElements h (JSVal.obj id) =
      wrapAll (fun v => V2.wrapElement h v)
        ((List.range n).map fun i => h.call id "item" [JSVal.num (Int.ofNat i)]) := by
    simp only [V2.nodeListToElements]
    rw [hobjs, okBind]
  have h1 : V1.nodeListToNodes h (JSVal.obj id) =
      wrapAll (fun v => V1.wrapNode h v)
        ((List.range n).map fun i => h.call id "item" [JSVal.num (Int.ofNat i)]) := by
    simp [V1.nodeListToNodes, hl, jsInt, okBind, Int.toNat_ofNat]
  have cN := snapshot_general (fun v => V2.wrapNode h v)
    (fun i => h.call id "item" [JSVal.num (Int.ofNat i)]) n _ hN hwN
  have cE := snapshot_general (fun v => V2.wrapElement h v)
    (fun i => h.call id "item" [JSVal.num (Int.ofNat i)]) n _ hE hwE
  have c1 := snapshot_general (fun v => V1.wrapNode h v)
    (fun i => h.call id "item" [JSVal.num (Int.ofNat i)]) n _ h1 hw1
  refine ⟨cN, cE, c1, ?_⟩
  intro h0
  obtain ⟨l, hle, hlen, _⟩ := cN
  rw [hle]
  subst h0
  rw [List.length_eq_zero.1 hlen]

/-- C6 witness: an item-shaped collection of length 2 whose first item is
null and whose second is a div element. -/
theorem C6_snapshot_converter_witness :
    ∃ l, V2.nodeListToNodes listHost (JSVal.obj 0) = .ok l ∧ l.length = 2 := by
  obtain ⟨l, h1, h2, _⟩ := (C6_snapshot_converter listHost 0 2 (by decide) rfl
    (fun i hi =>
      match i, hi with
      | 0, _ => ⟨none, rfl⟩
      | 1, _ => ⟨some (V2.NodeFacade.element ⟨HTMLKind.basic, ⟨⟨⟨JSVal.obj 5⟩⟩⟩⟩), rfl⟩)
    (fun i hi =>
      match i, hi with
      | 0, _ => ⟨none, rfl⟩
      | 1, _ => ⟨some ⟨HTMLKind.basic, ⟨⟨⟨JSVal.obj 5⟩⟩⟩⟩, rfl⟩)
    (fun i hi =>
      match i, hi with
      | 0, _ => ⟨none, rfl⟩
      | 1, _ => ⟨some ⟨HTMLKind.div, ⟨⟨⟨JSVal.obj 5⟩⟩⟩⟩, rfl⟩)).1
  exact ⟨l, h1, h2⟩

/-- C7: falsified as stated for the v1 converters. On an Array-shaped
collection whose index entries differ from its item results, the dom.go
converter still iterates through the item accessor: it produces the wrap of
null rather than the wrap of the collection's index entry 0, a div element,
which the detecting v2 converter collects. -/
theorem C7_counterexample :
    V1.nodeListToNodes arrayItemHost (JSVal.obj 0) = .ok [none] ∧
    V1.wrapNode arrayItemHost (arrayItemHost.index 0 0) =
      .ok (some ⟨HTMLKind.div, ⟨⟨⟨JSVal.obj 5⟩⟩⟩⟩) ∧
    V2.nodeListToObjects arrayItemHost (JSVal.obj 0) = .ok [JSVal.obj 5] :=
  ⟨rfl, rfl, rfl⟩

/-- C7 (amended): the v2 snapshot converter detects which of the two host
collection shapes is present: a collection whose constructor is the global
Array type is iterated by index subscripting, any other through the item
accessor driven by the length property, and when the two shapes hold the
same items the produced sequences are equal; the v1 converters perform no
shape detection and always iterate through the item accessor and the length
property, also on an Array-shaped collection. -/
theorem C7_shape_detection (h : Host) (ida idb : Nat) (n : Nat)
    (ha : h.props ida "constructor" = h.global "Array")
    (hla : h.props ida "length" = JSVal.num (Int.ofNat n))
    (hb : h.props idb "constructor" ≠ h.global "Array")
    (hlb : h.props idb "length" = JSVal.num (Int.ofNat n)) :
    V2.nodeListToObjects h (JSVal.obj ida) =
      .ok ((List.range n).map fun i => h.index ida (Int.ofNat i)) ∧
    V2.nodeListToObjects h (JSVal.obj idb) =
      .ok ((List.range n).map fun i => h.call idb "item" [JSVal.num (Int.ofNat i)]) ∧
    ((∀ i, i < n → h.index ida (Int.ofNat i) = h.call idb "item" [JSVal.num (Int.ofNat i)]) →
      V2.nodeListToObjects h (JSVal.obj ida) = V2.nodeListToObjects h (JSVal.obj idb)) ∧
    (V1.nodeListToNodes h (JSVal.obj ida) =
      wrapAll (fun v => V1.wrapNode h v)
        ((List.range n).map fun i => h.call ida "item" [JSVal.num (Int.ofNat i)])) := by
  have h1 : V2.nodeListToObjects h (JSVal.obj ida) =
      .ok ((List.range n).map fun i => h.index ida (Int.ofNat i)) := by
    simp [V2.nodeListToObjects, V2.arrayToObjects, ha, hla, jsInt, okBind, Int.toNat_ofNat]
  have h2 : V2.nodeListToObjects h (JSVal.obj idb) =
      .ok ((List.range n).map fun i => h.call idb "item" [JSVal.num (Int.ofNat i)]) := by
    simp [V2.nodeListToObjects, hb, hlb, jsInt, okBind, Int.toNat_ofNat]
  refine ⟨h1, h2, fun hagree => ?_, ?_⟩
  · rw [h1, h2]
    congr 1
    exact List.map_congr_left (fun i hi => hagree i (List.mem_range.1 hi))
  · simp [V1.nodeListToNodes, hla, jsInt, okBind, Int.toNat_ofNat]

/-- C7 witness: an Array-shaped and an item-shaped collection holding the
same two items convert to the same sequence. -/
theorem C7_shape_detection_witness :
    V2.nodeListToObjects twoShapesHost (JSVal.obj 0) =
      V2.nodeListToObjects twoShapesHost (JSVal.obj 1) :=
  (C7_shape_detection twoShapesHost 0 1 2 rfl rfl (by decide) rfl).2.2.1
    (fun i hi =>
      match i, hi with
      | 0, _ => rfl
      | 1, _ => rfl)

end GoDom
